import Mathlib

/-!
Verification of the advisory-classifier backend (`src/backend/server.py`).

The logical core is the body of the `POST /chat` handler `chat_with_ai`
(lines 70–194): an empty/whitespace gate followed by an if/elif chain that
tests eight fixed keyword sets, in priority order, against the lower-cased
message, and otherwise falls through to a generic default.  The chain is
embedded here as the pure function `classify`; the surrounding handler,
whose try/except wraps the two database inserts, is embedded as
`chat_with_ai` over explicit insert outcomes.

Strings are modelled as Lean `String`s (lists of Unicode characters).
Python's `str.lower` and `str.strip` are modelled for ASCII text by
`lowerChar`/`pyLower` and `pyStrip`; the keyword literals and every input
exercised by the specification are ASCII, and the Unicode special cases of
Python's case mapping are outside the scope of this development.
-/

/-- ASCII lower-casing of one character: models Python `str.lower` on the
ASCII range (uppercase letters 65–90 map to 97–122, everything else is
fixed). -/
def lowerChar (c : Char) : Char :=
  if 65 ≤ c.toNat ∧ c.toNat ≤ 90 then Char.ofNat (c.toNat + 32) else c

/-- Models Python `str.lower` applied to the message (line 95 of the
source), character by character. -/
def pyLower (l : List Char) : List Char :=
  l.map lowerChar

/-- ASCII whitespace, as recognised by Python `str.strip()`: space, tab,
newline, carriage return, vertical tab, form feed. -/
def isSpace (c : Char) : Bool :=
  c.toNat = 32 || c.toNat = 9 || c.toNat = 10 || c.toNat = 13 || c.toNat = 11 || c.toNat = 12

/-- Models Python `str.strip()`: remove leading and trailing whitespace. -/
def pyStrip (l : List Char) : List Char :=
  ((l.dropWhile isSpace).reverse.dropWhile isSpace).reverse

/-- `leadsWith kw l` is true when `kw` is an initial segment of `l`. -/
def leadsWith : List Char → List Char → Bool
  | [], _ => true
  | _ :: _, [] => false
  | c :: cs, d :: ds => c = d && leadsWith cs ds

/-- Models the Python substring operator `kw in hay`: `kw` occurs
contiguously somewhere in `hay`. -/
def hasSub (kw : List Char) : List Char → Bool
  | [] => kw.isEmpty
  | d :: ds => leadsWith kw (d :: ds) || hasSub kw ds

/-- Models `any(keyword in message_lower for keyword in kws)`. -/
def anyKw (hay : List Char) (kws : List String) : Bool :=
  kws.any fun kw => hasSub kw.data hay

/-- Keyword set tested first (source line 98). -/
def hardwareWalletKeywords : List String :=
  ["hardware wallet", "cold storage", "ledger", "trezor"]

/-- Keyword set tested second (source line 107). -/
def twoFactorKeywords : List String :=
  ["2fa", "two factor", "authentication", "google authenticator"]

/-- Keyword set tested third (source line 116). -/
def exchangeKeywords : List String :=
  ["exchange", "binance", "coinbase", "kraken", "centralized"]

/-- Keyword set tested fourth (source line 125). -/
def defiKeywords : List String :=
  ["defi", "smart contract", "protocol", "yield farming", "liquidity"]

/-- Keyword set tested fifth (source line 134). -/
def scamKeywords : List String :=
  ["scam", "phishing", "fake", "suspicious"]

/-- Keyword set tested sixth (source line 143). -/
def premiumKeywords : List String :=
  ["premium", "cost", "price", "reduce", "lower", "cheaper"]

/-- Keyword set tested seventh (source line 152). -/
def backupKeywords : List String :=
  ["backup", "seed phrase", "recovery", "lost keys"]

/-- Keyword set tested eighth (source line 161). -/
def multisigKeywords : List String :=
  ["multisig", "multi-signature", "multiple keys"]

/-- Response for an empty or whitespace-only message (source line 86). -/
def emptyResponse (user_name : String) : String :=
  "Hi " ++ user_name ++ "! I\x27m here to help you reduce your crypto insurance premiums. Please ask me any questions about crypto security, insurance options, or premium reduction strategies!"

/-- Recommendations for an empty or whitespace-only message (source lines 87–92). -/
def emptyRecs : List String :=
  ["Hardware wallet usage = 40% premium reduction",
   "Two-factor authentication = 15% reduction",
   "Regular security audits = 10% reduction",
   "Proper backup procedures = 20% reduction"]

/-- Hardware-wallet category response (source line 99). -/
def hardwareResponse (user_name : String) : String :=
  "Excellent question, " ++ user_name ++ "! Hardware wallets are the gold standard for crypto security. Using a hardware wallet like Ledger or Trezor can reduce your insurance premiums by up to 40%. These devices keep your private keys offline, making them nearly impossible to hack remotely."

/-- Hardware-wallet category recommendations (source lines 100–105). -/
def hardwareRecs : List String :=
  ["Hardware wallet usage = 40% premium reduction",
   "Consider Ledger Nano X or Trezor Model T",
   "Store seed phrase securely (separate location)",
   "Enable PIN protection on device"]

/-- Two-factor-auth category response (source line 108). -/
def twoFactorResponse (user_name : String) : String :=
  "Great thinking, " ++ user_name ++ "! Two-factor authentication is crucial. Using 2FA on all your crypto accounts can reduce premiums by 15%. Avoid SMS-based 2FA - use app-based authenticators like Google Authenticator or hardware keys like YubiKey."

/-- Two-factor-auth category recommendations (source lines 109–114). -/
def twoFactorRecs : List String :=
  ["App-based 2FA = 15% premium reduction",
   "Use Google Authenticator or Authy",
   "Avoid SMS-based 2FA (vulnerable to SIM swaps)",
   "Consider hardware keys for maximum security"]

/-- Exchange-custody category response (source line 117). -/
def exchangeResponse (user_name : String) : String :=
  "Important consideration, " ++ user_name ++ "! Keeping crypto on exchanges increases risk and premiums. Moving funds to self-custody (hardware wallet) can reduce your premium by 30-50%. Only keep trading amounts on exchanges."

/-- Exchange-custody category recommendations (source lines 118–123). -/
def exchangeRecs : List String :=
  ["Self-custody reduces premiums by 30-50%",
   "Only keep trading amounts on exchanges",
   "Use reputable exchanges with insurance coverage",
   "Enable all available security features"]

/-- DeFi-risk category response (source line 126). -/
def defiResponse (user_name : String) : String :=
  "Smart question, " ++ user_name ++ "! DeFi carries higher risks but there are ways to reduce premiums: Use only audited protocols, start with established platforms like Uniswap/Aave, and consider DeFi insurance add-ons."

/-- DeFi-risk category recommendations (source lines 127–132). -/
def defiRecs : List String :=
  ["Use only audited protocols = 20% reduction",
   "Stick to established platforms (Uniswap, Aave)",
   "Consider DeFi-specific insurance coverage",
   "Monitor protocol health regularly"]

/-- Scam-awareness category response (source line 135). -/
def scamResponse (user_name : String) : String :=
  "Crucial awareness, " ++ user_name ++ "! Scam protection education can reduce premiums by 10%. Always verify URLs, never click suspicious links, and use bookmarks for important sites. Our AI monitors for new scam patterns 24/7."

/-- Scam-awareness category recommendations (source lines 136–141). -/
def scamRecs : List String :=
  ["Scam awareness training = 10% reduction",
   "Always verify website URLs",
   "Use bookmarks for important sites",
   "Report suspicious activities immediately"]

/-- Premium-optimization category response (source line 144). -/
def premiumResponse (user_name : String) : String :=
  "Perfect question, " ++ user_name ++ "! Here\x27s how to maximize your premium reductions: Combine hardware wallet (40% off) + 2FA (15% off) + security audit (10% off) = up to 65% total savings. The more security measures, the lower your premium!"

/-- Premium-optimization category recommendations (source lines 145–150). -/
def premiumRecs : List String :=
  ["Hardware wallet = 40% reduction",
   "2FA on all accounts = 15% reduction",
   "Regular security audits = 10% reduction",
   "Combine all measures for maximum savings"]

/-- Backup-recovery category response (source line 153). -/
def backupResponse (user_name : String) : String :=
  "Critical topic, " ++ user_name ++ "! Proper backup procedures can reduce premiums by 20%. Store your seed phrase on metal backup plates, use multiple secure locations, and never store digitally. Lost key coverage requires verified backup procedures."

/-- Backup-recovery category recommendations (source lines 154–159). -/
def backupRecs : List String :=
  ["Metal backup plates = 20% reduction",
   "Multiple secure storage locations",
   "Never store seed phrases digitally",
   "Document your backup procedures"]

/-- Multisig category response (source line 162). -/
def multisigResponse (user_name : String) : String :=
  "Advanced security, " ++ user_name ++ "! Multi-signature wallets offer the highest protection and can reduce premiums by up to 50%. Requires 2+ signatures for transactions. Great for high-value holdings."

/-- Multisig category recommendations (source lines 163–168; the third
entry reproduces the source file's bytes for its mangled currency sign). -/
def multisigRecs : List String :=
  ["Multi-signature setup = 50% reduction",
   "Requires 2-3 signature approvals",
   "Ideal for holdings above â‚¬50,000",
   "Consider Gnosis Safe or Casa solutions"]

/-- Generic-default category response (source line 172): interpolates both
the caller's name and the original, non-lower-cased message. -/
def genericResponse (user_name : String) (message : String) : String :=
  "Hi " ++ user_name ++ "! I\x27m here to help you reduce your crypto insurance premiums. Based on your question about \x27" ++ message ++ "\x27, I can provide personalized advice. The key is implementing multiple security layers - each one reduces your premium!"

/-- Generic-default category recommendations (source lines 173–178). -/
def genericRecs : List String :=
  ["Hardware wallet usage = 40% premium reduction",
   "Two-factor authentication = 15% reduction",
   "Regular security audits = 10% reduction",
   "Proper backup procedures = 20% reduction"]

/-- The pair returned by the chat endpoint: response text plus
recommendation strings (the `ChatResponse` model of the source). -/
structure ChatResult where
  response : String
  recommendations : List String
  deriving DecidableEq, Repr

/-- The classifier at the heart of `chat_with_ai` (source lines 82–178):
the empty/whitespace gate (`if not chat_data.message or not
chat_data.message.strip()`), then the if/elif chain over the lower-cased
message, in source order, else the generic default. -/
def classify (message : String) (user_name : String) : ChatResult :=
  if message.data.isEmpty || (pyStrip message.data).isEmpty then
    ⟨emptyResponse user_name, emptyRecs⟩
  else
    let message_lower := pyLower message.data
    if anyKw message_lower hardwareWalletKeywords then
      ⟨hardwareResponse user_name, hardwareRecs⟩
    else if anyKw message_lower twoFactorKeywords then
      ⟨twoFactorResponse user_name, twoFactorRecs⟩
    else if anyKw message_lower exchangeKeywords then
      ⟨exchangeResponse user_name, exchangeRecs⟩
    else if anyKw message_lower defiKeywords then
      ⟨defiResponse user_name, defiRecs⟩
    else if anyKw message_lower scamKeywords then
      ⟨scamResponse user_name, scamRecs⟩
    else if anyKw message_lower premiumKeywords then
      ⟨premiumResponse user_name, premiumRecs⟩
    else if anyKw message_lower backupKeywords then
      ⟨backupResponse user_name, backupRecs⟩
    else if anyKw message_lower multisigKeywords then
      ⟨multisigResponse user_name, multisigRecs⟩
    else
      ⟨genericResponse user_name message, genericRecs⟩

/-- The ten fixed advisory categories of the spec's data model. -/
inductive Category where
  | emptyInput
  | hardwareWallet
  | twoFactorAuth
  | exchangeCustody
  | defiRisk
  | scamAwareness
  | premiumOptimization
  | backupRecovery
  | multisig
  | genericDefault
  deriving DecidableEq, Repr

/-- Which branch of the keyword if/elif chain fires on an (already
lower-cased) message: same conditions, in the same order, as `classify`. -/
def matchChain (hay : List Char) : Category :=
  if anyKw hay hardwareWalletKeywords then .hardwareWallet
  else if anyKw hay twoFactorKeywords then .twoFactorAuth
  else if anyKw hay exchangeKeywords then .exchangeCustody
  else if anyKw hay defiKeywords then .defiRisk
  else if anyKw hay scamKeywords then .scamAwareness
  else if anyKw hay premiumKeywords then .premiumOptimization
  else if anyKw hay backupKeywords then .backupRecovery
  else if anyKw hay multisigKeywords then .multisig
  else .genericDefault

/-- The category `classify` selects on a given message. -/
def selectCategory (message : String) : Category :=
  if message.data.isEmpty || (pyStrip message.data).isEmpty then .emptyInput
  else matchChain (pyLower message.data)

/-- Response template of each category, applied to the caller's name and
the original message (only the generic default reads the message). -/
def responseFor : Category → String → String → String
  | .emptyInput, user_name, _ => emptyResponse user_name
  | .hardwareWallet, user_name, _ => hardwareResponse user_name
  | .twoFactorAuth, user_name, _ => twoFactorResponse user_name
  | .exchangeCustody, user_name, _ => exchangeResponse user_name
  | .defiRisk, user_name, _ => defiResponse user_name
  | .scamAwareness, user_name, _ => scamResponse user_name
  | .premiumOptimization, user_name, _ => premiumResponse user_name
  | .backupRecovery, user_name, _ => backupResponse user_name
  | .multisig, user_name, _ => multisigResponse user_name
  | .genericDefault, user_name, message => genericResponse user_name message

/-- Recommendation list of each category. -/
def recsFor : Category → List String
  | .emptyInput => emptyRecs
  | .hardwareWallet => hardwareRecs
  | .twoFactorAuth => twoFactorRecs
  | .exchangeCustody => exchangeRecs
  | .defiRisk => defiRecs
  | .scamAwareness => scamRecs
  | .premiumOptimization => premiumRecs
  | .backupRecovery => backupRecs
  | .multisig => multisigRecs
  | .genericDefault => genericRecs

/-- The eight keyword sets paired with their categories, in the source's
priority order. -/
def keywordTable : List (List String × Category) :=
  [(hardwareWalletKeywords, .hardwareWallet),
   (twoFactorKeywords, .twoFactorAuth),
   (exchangeKeywords, .exchangeCustody),
   (defiKeywords, .defiRisk),
   (scamKeywords, .scamAwareness),
   (premiumKeywords, .premiumOptimization),
   (backupKeywords, .backupRecovery),
   (multisigKeywords, .multisig)]

/-- The first keyword set (in priority order) that matches the given
lower-cased message, if any. -/
def firstMatch (hay : List Char) : Option Category :=
  (keywordTable.find? fun p => anyKw hay p.1).map Prod.snd

/-- Outcome of one database insert, as seen by the handler's try/except:
either it succeeds, or it raises an exception whose text is `str(e)`. -/
inductive DbWrite where
  | ok : DbWrite
  | fail : String → DbWrite
  deriving DecidableEq, Repr

/-- What the `POST /chat` handler hands back: either the serialized
`ChatResponse`, or an `HTTPException` status/detail pair. -/
structure EndpointOutcome where
  reply : Except (Nat × String) ChatResult
  logs : List String
  deriving Repr

/-- The `POST /chat` handler `chat_with_ai` (source lines 69–194), over
explicit outcomes for its two database inserts.  The whole body sits in
one `try`: a failure of the pre-classification insert (line 79) or of the
post-classification insert (line 188) propagates to the `except` clause,
which logs `Error in chat endpoint: ...` and raises
`HTTPException(500, "Error processing chat: ...")`. -/
def chat_with_ai (saveUserMessage saveAiMessage : DbWrite)
    (message : String) (user_name : String) : EndpointOutcome :=
  match saveUserMessage with
  | .fail e =>
    ⟨.error (500, "Error processing chat: " ++ e), ["Error in chat endpoint: " ++ e]⟩
  | .ok =>
    let result := classify message user_name
    match saveAiMessage with
    | .fail e =>
      ⟨.error (500, "Error processing chat: " ++ e), ["Error in chat endpoint: " ++ e]⟩
    | .ok => ⟨.ok result, []⟩

/-- Two characters are ASCII case variants: equal, or an upper/lower pair
of the same Latin letter. -/
def caseEqChar (c d : Char) : Bool :=
  c = d || (65 ≤ c.toNat && c.toNat ≤ 90 && d.toNat = c.toNat + 32)
    || (65 ≤ d.toNat && d.toNat ≤ 90 && c.toNat = d.toNat + 32)

/-- Two character lists differ only in the ASCII letter case of some
positions. -/
def caseVariant : List Char → List Char → Bool
  | [], [] => true
  | [], _ :: _ => false
  | _ :: _, [] => false
  | c :: cs, d :: ds => caseEqChar c d && caseVariant cs ds

theorem toNat_lowerChar (c : Char) :
    (lowerChar c).toNat = if 65 ≤ c.toNat ∧ c.toNat ≤ 90 then c.toNat + 32 else c.toNat := by
  unfold lowerChar
  split
  · rename_i h
    have hv : (c.toNat + 32).isValidChar := by
      left; omega
    rw [Char.ofNat, dif_pos hv]
    rfl
  · rfl

theorem isSpace_lowerChar (c : Char) : isSpace (lowerChar c) = isSpace c := by
  have ht := toNat_lowerChar c
  unfold isSpace
  by_cases h : 65 ≤ c.toNat ∧ c.toNat ≤ 90
  · rw [if_pos h] at ht
    rw [ht]
    have hl : (decide (c.toNat + 32 = 32) || decide (c.toNat + 32 = 9) ||
        decide (c.toNat + 32 = 10) || decide (c.toNat + 32 = 13) ||
        decide (c.toNat + 32 = 11) || decide (c.toNat + 32 = 12)) = false := by
      simp only [Bool.or_eq_false_iff, decide_eq_false_iff_not]
      omega
    have hr : (decide (c.toNat = 32) || decide (c.toNat = 9) ||
        decide (c.toNat = 10) || decide (c.toNat = 13) ||
        decide (c.toNat = 11) || decide (c.toNat = 12)) = false := by
      simp only [Bool.or_eq_false_iff, decide_eq_false_iff_not]
      omega
    rw [hl, hr]
  · rw [if_neg h] at ht
    rw [ht]

theorem pyStrip_eq_nil_iff (l : List Char) : pyStrip l = [] ↔ l.all isSpace = true := by
  unfold pyStrip
  rw [List.reverse_eq_nil_iff, List.dropWhile_eq_nil_iff, List.all_eq_true]
  constructor
  · intro h
    by_cases hd : l.dropWhile isSpace = []
    · intro c hc
      exact (List.dropWhile_eq_nil_iff.mp hd) c hc
    · exfalso
      have hlen : 0 < (l.dropWhile isSpace).length := List.length_pos.mpr hd
      have hnot := List.dropWhile_get_zero_not isSpace l hlen
      have hmem : (l.dropWhile isSpace).get ⟨0, hlen⟩ ∈ (l.dropWhile isSpace).reverse :=
        List.mem_reverse.mpr (List.get_mem _ _ _)
      exact hnot (by simpa using h _ hmem)
  · intro h c hc
    have hc2 : c ∈ l := by
      have h1 : c ∈ l.dropWhile isSpace := by simpa using hc
      exact (List.dropWhile_sublist isSpace).subset h1
    exact h c hc2

theorem leadsWith_self_append (kw t : List Char) : leadsWith kw (kw ++ t) = true := by
  induction kw with
  | nil => rfl
  | cons c cs ih => simp [leadsWith, ih]

theorem hasSub_append_left (kw s r : List Char) (h : hasSub kw r = true) :
    hasSub kw (s ++ r) = true := by
  induction s with
  | nil => simpa
  | cons c cs ih =>
    simp only [List.cons_append, hasSub, List.append_eq]
    rw [ih]
    simp

theorem hasSub_middle (kw s t : List Char) : hasSub kw (s ++ (kw ++ t)) = true := by
  apply hasSub_append_left
  cases kw with
  | nil => cases t <;> simp [hasSub, leadsWith]
  | cons c cs =>
    simp only [List.cons_append, hasSub, List.append_eq]
    rw [show (c :: (cs ++ t)) = ((c :: cs) ++ t) from rfl]
    rw [leadsWith_self_append]
    simp

theorem leadsWith_any (kw hay : List Char) (p : Char → Bool) (h : leadsWith kw hay = true)
    (ha : kw.any p = true) : hay.any p = true := by
  induction kw generalizing hay with
  | nil => simp at ha
  | cons c cs ih =>
    cases hay with
    | nil => simp [leadsWith] at h
    | cons d ds =>
      simp only [leadsWith, Bool.and_eq_true, decide_eq_true_eq] at h
      obtain ⟨rfl, h2⟩ := h
      simp only [List.any_cons, Bool.or_eq_true] at ha ⊢
      rcases ha with ha | ha
      · left; exact ha
      · right; exact ih ds h2 ha

theorem hasSub_any (kw hay : List Char) (p : Char → Bool) (h : hasSub kw hay = true)
    (ha : kw.any p = true) : hay.any p = true := by
  induction hay with
  | nil =>
    simp only [hasSub, List.isEmpty_iff] at h
    subst h; simp at ha
  | cons d ds ih =>
    simp only [hasSub, Bool.or_eq_true] at h
    rcases h with h | h
    · exact leadsWith_any kw (d :: ds) p h ha
    · simp only [List.any_cons, Bool.or_eq_true]
      right; exact ih h

theorem classify_eq (m n : String) :
    classify m n = ⟨responseFor (selectCategory m) n m, recsFor (selectCategory m)⟩ := by
  unfold classify selectCategory matchChain
  dsimp only
  repeat' split
  all_goals rfl

theorem bool_eq_of_iff (a b : Bool) (h : a = true ↔ b = true) : a = b := by
  cases a <;> cases b <;> simp_all

theorem matchChain_firstMatch (hay : List Char) :
    matchChain hay = (firstMatch hay).getD Category.genericDefault := by
  unfold matchChain firstMatch keywordTable
  by_cases h1 : anyKw hay hardwareWalletKeywords = true
  · simp [h1]
  · by_cases h2 : anyKw hay twoFactorKeywords = true
    · simp [h1, h2]
    · by_cases h3 : anyKw hay exchangeKeywords = true
      · simp [h1, h2, h3]
      · by_cases h4 : anyKw hay defiKeywords = true
        · simp [h1, h2, h3, h4]
        · by_cases h5 : anyKw hay scamKeywords = true
          · simp [h1, h2, h3, h4, h5]
          · by_cases h6 : anyKw hay premiumKeywords = true
            · simp [h1, h2, h3, h4, h5, h6]
            · by_cases h7 : anyKw hay backupKeywords = true
              · simp [h1, h2, h3, h4, h5, h6, h7]
              · by_cases h8 : anyKw hay multisigKeywords = true
                · simp [h1, h2, h3, h4, h5, h6, h7, h8]
                · simp [h1, h2, h3, h4, h5, h6, h7, h8]

theorem anyKw_nonspace (hay : List Char) (kws : List String)
    (hk : ∀ kw ∈ kws, kw.data.any (fun ch => !isSpace ch) = true)
    (h : anyKw hay kws = true) : hay.any (fun ch => !isSpace ch) = true := by
  unfold anyKw at h
  simp only [List.any_eq_true] at h
  obtain ⟨kw, hmem, hsub⟩ := h
  exact hasSub_any _ _ _ hsub (hk kw hmem)

theorem table_keywords_nonspace :
    ∀ p ∈ keywordTable, ∀ kw ∈ p.1, kw.data.any (fun ch => !isSpace ch) = true := by
  decide

theorem gate_false_of_nonspace (m : List Char) (h : m.any (fun ch => !isSpace ch) = true) :
    (m.isEmpty || (pyStrip m).isEmpty) = false := by
  obtain ⟨c, hc, hns⟩ := List.any_eq_true.mp h
  simp only [Bool.or_eq_false_iff]
  constructor
  · simp only [List.isEmpty_eq_false_iff_exists_mem]
    exact ⟨c, hc⟩
  · by_cases hp : pyStrip m = []
    · exfalso
      have hall := List.all_eq_true.mp ((pyStrip_eq_nil_iff m).mp hp) c hc
      simp [hall] at hns
    · simp [List.isEmpty_iff, hp]

theorem any_nonspace_of_pyLower (m : List Char)
    (h : (pyLower m).any (fun ch => !isSpace ch) = true) :
    m.any (fun ch => !isSpace ch) = true := by
  unfold pyLower at h
  rw [List.any_map] at h
  obtain ⟨c, hc, hns⟩ := List.any_eq_true.mp h
  refine List.any_eq_true.mpr ⟨c, hc, ?_⟩
  simpa [Function.comp, isSpace_lowerChar] using hns

theorem firstMatch_gate (m : List Char) (c : Category)
    (h : firstMatch (pyLower m) = some c) :
    (m.isEmpty || (pyStrip m).isEmpty) = false := by
  unfold firstMatch at h
  rw [Option.map_eq_some'] at h
  obtain ⟨p, hfind, hsnd⟩ := h
  have hmem := List.mem_of_find?_eq_some hfind
  have hp := List.find?_some hfind
  have h1 := anyKw_nonspace _ _ (fun kw hk => table_keywords_nonspace p hmem kw hk) hp
  exact gate_false_of_nonspace m (any_nonspace_of_pyLower m h1)

theorem isSpace_false_of_large (c : Char) (h : 33 ≤ c.toNat) : isSpace c = false := by
  unfold isSpace
  simp only [Bool.or_eq_false_iff, decide_eq_false_iff_not]
  omega

theorem lowerChar_of_caseEqChar (c d : Char) (h : caseEqChar c d = true) :
    lowerChar c = lowerChar d := by
  unfold caseEqChar at h
  simp only [Bool.or_eq_true, Bool.and_eq_true, decide_eq_true_eq] at h
  rcases h with (rfl | ⟨⟨h65, h90⟩, hd⟩) | ⟨⟨h65, h90⟩, hc⟩
  · rfl
  · have h1 : lowerChar c = Char.ofNat (c.toNat + 32) := by
      unfold lowerChar
      rw [if_pos ⟨h65, h90⟩]
    have h2 : lowerChar d = d := by
      unfold lowerChar
      rw [if_neg (by omega)]
    rw [h1, h2, ← hd, Char.ofNat_toNat]
  · have h1 : lowerChar d = Char.ofNat (d.toNat + 32) := by
      unfold lowerChar
      rw [if_pos ⟨h65, h90⟩]
    have h2 : lowerChar c = c := by
      unfold lowerChar
      rw [if_neg (by omega)]
    rw [h1, h2, ← hc, Char.ofNat_toNat]

theorem isSpace_of_caseEqChar (c d : Char) (h : caseEqChar c d = true) :
    isSpace c = isSpace d := by
  unfold caseEqChar at h
  simp only [Bool.or_eq_true, Bool.and_eq_true, decide_eq_true_eq] at h
  rcases h with (rfl | ⟨⟨h65, h90⟩, hd⟩) | ⟨⟨h65, h90⟩, hc⟩
  · rfl
  · rw [isSpace_false_of_large c (by omega), isSpace_false_of_large d (by omega)]
  · rw [isSpace_false_of_large c (by omega), isSpace_false_of_large d (by omega)]

theorem pyLower_of_caseVariant (a b : List Char) (h : caseVariant a b = true) :
    pyLower a = pyLower b := by
  induction a generalizing b with
  | nil => cases b with
    | nil => rfl
    | cons d ds => simp [caseVariant] at h
  | cons c cs ih =>
    cases b with
    | nil => simp [caseVariant] at h
    | cons d ds =>
      simp only [caseVariant, Bool.and_eq_true] at h
      obtain ⟨h1, h2⟩ := h
      simp only [pyLower, List.map_cons]
      rw [show lowerChar c = lowerChar d from lowerChar_of_caseEqChar c d h1]
      have := ih ds h2
      simp only [pyLower] at this
      rw [this]

theorem all_isSpace_of_caseVariant (a b : List Char) (h : caseVariant a b = true) :
    a.all isSpace = b.all isSpace := by
  induction a generalizing b with
  | nil => cases b with
    | nil => rfl
    | cons d ds => simp [caseVariant] at h
  | cons c cs ih =>
    cases b with
    | nil => simp [caseVariant] at h
    | cons d ds =>
      simp only [caseVariant, Bool.and_eq_true] at h
      obtain ⟨h1, h2⟩ := h
      simp only [List.all_cons]
      rw [isSpace_of_caseEqChar c d h1, ih ds h2]

theorem nil_iff_of_caseVariant (a b : List Char) (h : caseVariant a b = true) :
    a = [] ↔ b = [] := by
  cases a with
  | nil => cases b with
    | nil => simp
    | cons d ds => simp [caseVariant] at h
  | cons c cs =>
    cases b with
    | nil => simp [caseVariant] at h
    | cons d ds => simp

theorem gate_of_caseVariant (a b : List Char) (h : caseVariant a b = true) :
    (a.isEmpty || (pyStrip a).isEmpty) = (b.isEmpty || (pyStrip b).isEmpty) := by
  have hall := all_isSpace_of_caseVariant a b h
  have hnil := nil_iff_of_caseVariant a b h
  have hemp : a.isEmpty = b.isEmpty := by
    apply bool_eq_of_iff
    simp only [List.isEmpty_iff]
    exact hnil
  have hstrip : (pyStrip a).isEmpty = (pyStrip b).isEmpty := by
    apply bool_eq_of_iff
    simp only [List.isEmpty_iff, pyStrip_eq_nil_iff, hall]
  rw [hemp, hstrip]

theorem all_isSpace_pyLower (l : List Char) : (pyLower l).all isSpace = l.all isSpace := by
  induction l with
  | nil => rfl
  | cons c cs ih =>
    simp only [pyLower, List.map_cons, List.all_cons] at ih ⊢
    rw [isSpace_lowerChar, ih]

theorem gate_of_pyLower_eq (a b : List Char) (h : pyLower a = pyLower b) :
    (a.isEmpty || (pyStrip a).isEmpty) = (b.isEmpty || (pyStrip b).isEmpty) := by
  have hlen : a.length = b.length := by
    have := congrArg List.length h
    simpa [pyLower] using this
  have hall : a.all isSpace = b.all isSpace := by
    rw [← all_isSpace_pyLower a, ← all_isSpace_pyLower b, h]
  have hemp : a.isEmpty = b.isEmpty := by
    apply bool_eq_of_iff
    simp only [List.isEmpty_iff, ← List.length_eq_zero]
    omega
  have hstrip : (pyStrip a).isEmpty = (pyStrip b).isEmpty := by
    apply bool_eq_of_iff
    simp only [List.isEmpty_iff, pyStrip_eq_nil_iff, hall]
  rw [hemp, hstrip]

theorem hasSub_self_append (kw t : List Char) : hasSub kw (kw ++ t) = true := by
  simpa using hasSub_middle kw [] t

theorem hasSub_name_emptyResponse (u : String) :
    hasSub u.data (emptyResponse u).data = true := by
  unfold emptyResponse
  simp only [String.data_append, List.append_assoc]
  exact hasSub_append_left _ _ _ (hasSub_self_append _ _)

theorem hasSub_name_genericResponse (u m : String) :
    hasSub u.data (genericResponse u m).data = true := by
  unfold genericResponse
  simp only [String.data_append, List.append_assoc]
  exact hasSub_append_left _ _ _ (hasSub_self_append _ _)

theorem hasSub_msg_genericResponse (u m : String) :
    hasSub m.data (genericResponse u m).data = true := by
  unfold genericResponse
  simp only [String.data_append, List.append_assoc]
  apply hasSub_append_left
  apply hasSub_append_left
  apply hasSub_append_left
  exact hasSub_self_append _ _

theorem append_ne_empty_right (a b : String) (hb : b.data ≠ []) : a ++ b ≠ "" := by
  intro h
  have hd := congrArg String.data h
  rw [String.data_append, show ("" : String).data = [] from rfl] at hd
  exact hb (List.append_eq_nil.mp hd).2

theorem responseFor_ne_empty (c : Category) (n m : String) : responseFor c n m ≠ "" := by
  cases c <;> exact append_ne_empty_right _ _ (by decide)

theorem recsFor_length (c : Category) : (recsFor c).length = 4 := by
  cases c <;> rfl

theorem selectCategory_of_gate_false (m : String)
    (h : (m.data.isEmpty || (pyStrip m.data).isEmpty) = false) :
    selectCategory m = matchChain (pyLower m.data) := by
  unfold selectCategory
  rw [h]
  rfl

/-- C1: for every message on whose lower-cased text at least one keyword
set matches, `classify` returns exactly the response/recommendations pair
of the first matching category in the fixed priority order
(hardware-wallet, two-factor-auth, exchange-custody, defi-risk,
scam-awareness, premium-optimization, backup-recovery, multisig), even
when keywords of a later category also occur in the message. -/
theorem classify_first_match_priority (m user_name : String) (c : Category)
    (h : firstMatch (pyLower m.data) = some c) :
    classify m user_name = ⟨responseFor c user_name m, recsFor c⟩ ∧
    selectCategory m = c := by
  have hg := firstMatch_gate m.data c h
  have hsel : selectCategory m = c := by
    rw [selectCategory_of_gate_false m hg, matchChain_firstMatch, h]
    rfl
  exact ⟨by rw [classify_eq, hsel], hsel⟩

theorem classify_first_match_priority_witness :
    firstMatch (pyLower ("Ledger premium scam" : String).data) =
      some Category.hardwareWallet ∧
    (classify "Ledger premium scam" "Sam" =
        ⟨responseFor Category.hardwareWallet "Sam" "Ledger premium scam",
         recsFor Category.hardwareWallet⟩ ∧
      selectCategory "Ledger premium scam" = Category.hardwareWallet) :=
  ⟨by decide,
   classify_first_match_priority "Ledger premium scam" "Sam" Category.hardwareWallet
     (by decide)⟩

/-- C2 counterexample: the claim says a persistence failure around
classification still returns the computed classifier response, only
logging the failure; in the code both inserts sit inside the handler's
single try/except, so when the post-classification insert fails the
handler raises HTTP 500 and the computed response is not returned. -/
theorem chat_persistence_failure_counterexample :
    (chat_with_ai DbWrite.ok (DbWrite.fail "db down") "I use a Ledger" "Sam").reply ≠
      Except.ok (classify "I use a Ledger" "Sam") := by
  intro h
  exact Except.noConfusion h

/-- C2 amended: when either database insert of the `POST /chat` handler
fails, the handler logs `Error in chat endpoint: ...` and replies with
HTTP 500 (`Error processing chat: ...`) instead of the computed response;
the computed classifier response is returned exactly when both inserts
succeed. -/
theorem chat_with_ai_persistence (m user_name e : String) :
    (∀ w : DbWrite, chat_with_ai (DbWrite.fail e) w m user_name =
        ⟨Except.error (500, "Error processing chat: " ++ e),
         ["Error in chat endpoint: " ++ e]⟩) ∧
    chat_with_ai DbWrite.ok (DbWrite.fail e) m user_name =
        ⟨Except.error (500, "Error processing chat: " ++ e),
         ["Error in chat endpoint: " ++ e]⟩ ∧
    chat_with_ai DbWrite.ok DbWrite.ok m user_name =
        ⟨Except.ok (classify m user_name), []⟩ :=
  ⟨fun _ => rfl, rfl, rfl⟩

/-- C3: for every caller name, classifying an empty or whitespace-only
message returns the empty-input category's response and recommendations,
and that response contains the caller's name. -/
theorem classify_blank_empty_input (m user_name : String)
    (h : m.data.all isSpace = true) :
    classify m user_name = ⟨emptyResponse user_name, emptyRecs⟩ ∧
    selectCategory m = Category.emptyInput ∧
    hasSub user_name.data (classify m user_name).response.data = true := by
  have hg : (m.data.isEmpty || (pyStrip m.data).isEmpty) = true := by
    rw [Bool.or_eq_true]
    right
    simp [List.isEmpty_iff, pyStrip_eq_nil_iff, h]
  have hc : classify m user_name = ⟨emptyResponse user_name, emptyRecs⟩ := by
    unfold classify
    rw [if_pos hg]
  refine ⟨hc, ?_, ?_⟩
  · unfold selectCategory
    rw [if_pos hg]
  · rw [hc]
    exact hasSub_name_emptyResponse user_name

theorem classify_blank_empty_input_witness :
    (("" : String).data.all isSpace = true ∧
      ("   " : String).data.all isSpace = true) ∧
    (classify "" "Sam" = ⟨emptyResponse "Sam", emptyRecs⟩ ∧
      selectCategory "" = Category.emptyInput ∧
      hasSub ("Sam" : String).data (classify "" "Sam").response.data = true) ∧
    (classify "   " "Sam" = ⟨emptyResponse "Sam", emptyRecs⟩ ∧
      selectCategory "   " = Category.emptyInput ∧
      hasSub ("Sam" : String).data (classify "   " "Sam").response.data = true) :=
  ⟨⟨by decide, by decide⟩,
   classify_blank_empty_input "" "Sam" (by decide),
   classify_blank_empty_input "   " "Sam" (by decide)⟩

/-- C4: keyword matching is case-insensitive on the message only: two
messages that differ only in the ASCII letter case of some characters are
assigned the same category, and in particular "LEDGER wallet" selects the
hardware-wallet category. -/
theorem classify_case_insensitive :
    (∀ m1 m2 : String, caseVariant m1.data m2.data = true →
      selectCategory m1 = selectCategory m2) ∧
    selectCategory "LEDGER wallet" = Category.hardwareWallet := by
  constructor
  · intro m1 m2 h
    unfold selectCategory
    rw [gate_of_caseVariant _ _ h, pyLower_of_caseVariant _ _ h]
  · decide

theorem classify_case_insensitive_witness :
    caseVariant ("LeDgEr WaLLet" : String).data ("ledger wallet" : String).data = true ∧
    selectCategory "LeDgEr WaLLet" = selectCategory "ledger wallet" :=
  ⟨by decide,
   classify_case_insensitive.1 "LeDgEr WaLLet" "ledger wallet" (by decide)⟩

/-- C5: for every non-empty, non-whitespace-only message on which no
keyword set matches, `classify` returns the generic-default category, and
the generic-default response contains both the caller's name and the
original message text. -/
theorem classify_generic_default (m user_name : String)
    (h1 : (m.data.isEmpty || (pyStrip m.data).isEmpty) = false)
    (h2 : firstMatch (pyLower m.data) = none) :
    classify m user_name = ⟨genericResponse user_name m, genericRecs⟩ ∧
    selectCategory m = Category.genericDefault ∧
    hasSub user_name.data (classify m user_name).response.data = true ∧
    hasSub m.data (classify m user_name).response.data = true := by
  have hsel : selectCategory m = Category.genericDefault := by
    rw [selectCategory_of_gate_false m h1, matchChain_firstMatch, h2]
    rfl
  have hc : classify m user_name = ⟨genericResponse user_name m, genericRecs⟩ := by
    rw [classify_eq, hsel]
    rfl
  refine ⟨hc, hsel, ?_, ?_⟩
  · rw [hc]
    exact hasSub_name_genericResponse user_name m
  · rw [hc]
    exact hasSub_msg_genericResponse user_name m

theorem classify_generic_default_witness :
    ((("tell me about quantum computing" : String).data.isEmpty ||
        (pyStrip ("tell me about quantum computing" : String).data).isEmpty) = false ∧
      firstMatch (pyLower ("tell me about quantum computing" : String).data) = none) ∧
    (classify "tell me about quantum computing" "Sam" =
        ⟨genericResponse "Sam" "tell me about quantum computing", genericRecs⟩ ∧
      selectCategory "tell me about quantum computing" = Category.genericDefault ∧
      hasSub ("Sam" : String).data
        (classify "tell me about quantum computing" "Sam").response.data = true ∧
      hasSub ("tell me about quantum computing" : String).data
        (classify "tell me about quantum computing" "Sam").response.data = true) :=
  ⟨⟨by decide, by decide⟩,
   classify_generic_default "tell me about quantum computing" "Sam"
     (by decide) (by decide)⟩

/-- C6: category selection is independent of caller identity — for every
message, any two caller names yield identical recommendation lists, every
call's output is exactly that of the one selected category, and the
selected category is a pure function of the lower-cased message text. -/
theorem classify_caller_independent :
    (∀ m n1 n2 : String,
      (classify m n1).recommendations = (classify m n2).recommendations) ∧
    (∀ m user_name : String,
      classify m user_name =
        ⟨responseFor (selectCategory m) user_name m, recsFor (selectCategory m)⟩) ∧
    (∀ m1 m2 : String, pyLower m1.data = pyLower m2.data →
      selectCategory m1 = selectCategory m2) := by
  refine ⟨?_, ?_, ?_⟩
  · intro m n1 n2
    rw [classify_eq, classify_eq]
  · intro m user_name
    exact classify_eq m user_name
  · intro m1 m2 h
    unfold selectCategory
    rw [gate_of_pyLower_eq _ _ h, h]

theorem classify_caller_independent_witness :
    pyLower ("HELLO PREMIUM" : String).data = pyLower ("hello premium" : String).data ∧
    selectCategory "HELLO PREMIUM" = selectCategory "hello premium" :=
  ⟨by decide,
   classify_caller_independent.2.2 "HELLO PREMIUM" "hello premium" (by decide)⟩

/-- C7: the classifier is total — for every message and caller name it
produces the response/recommendations pair of its selected category, with
a non-empty response and a non-empty recommendation list; no input reaches
an error. -/
theorem classify_total (m user_name : String) :
    classify m user_name =
      ⟨responseFor (selectCategory m) user_name m, recsFor (selectCategory m)⟩ ∧
    (classify m user_name).response ≠ "" ∧
    (classify m user_name).recommendations ≠ [] := by
  refine ⟨classify_eq m user_name, ?_, ?_⟩
  · rw [classify_eq]
    show responseFor (selectCategory m) user_name m ≠ ""
    exact responseFor_ne_empty _ _ _
  · rw [classify_eq]
    show recsFor (selectCategory m) ≠ []
    intro h
    have hl := recsFor_length (selectCategory m)
    rw [h] at hl
    simp at hl

/-- C8: classifying "I use a Ledger" for caller "Sam" selects the
hardware-wallet category, and the returned recommendations list starts
with "Hardware wallet usage = 40% premium reduction". -/
theorem classify_ledger_sam :
    selectCategory "I use a Ledger" = Category.hardwareWallet ∧
    (classify "I use a Ledger" "Sam").recommendations.head? =
      some "Hardware wallet usage = 40% premium reduction" := by
  constructor
  · decide
  · decide

/-- C9: for every message and caller name, the recommendations list
returned by `classify` has exactly 4 entries. -/
theorem classify_recommendations_length (m user_name : String) :
    (classify m user_name).recommendations.length = 4 := by
  rw [classify_eq]
  show (recsFor (selectCategory m)).length = 4
  exact recsFor_length (selectCategory m)

/-- C10: the empty-input category and the generic-default category carry
element-wise identical recommendation lists, so an empty message and an
unmatched one return the same recommendations. -/
theorem empty_generic_recs_identical :
    emptyRecs = genericRecs ∧
    (classify "" "Alice").recommendations =
      (classify "this message matches no keyword set" "Bob").recommendations := by
  constructor
  · decide
  · decide
